import Mathlib

/-!
Verification development for the note-summarizer repository.

The subject is the LLM provider abstraction and response-normalization
pipeline:
* `src/models/enhanced_llm_processor.py` (class `EnhancedLLMProcessor`):
  input truncation, prompt construction, summary normalization and
  flashcard normalization over an embedded JSON array;
* `src/models/llm_processor.py` (class `LLMProcessor`): line-tagged
  `Q:`/`A:` flashcard parsing;
* `src/models/llm_provider.py` (class `LLMProviderManager`): the provider
  registry and the `create_llm` client factory.

External effects are made explicit: a generation call is an oracle
`String → Except String String` (error message or raw response text),
a backend client constructor is an oracle `CtorCall → Except String Client`,
and the process environment is an association list threaded through the
factory.  Python exceptions are modelled as `Except.error`; a function that
catches all exceptions returns a plain value.
-/

/-! ### Python-style string helpers

Python strings are sequences of code points; we work over `List Char`
wrapped back into `String`, mirroring `str.find`, `str.rfind`, slicing,
`str.strip`, `str.split` and substring containment. -/

/-- `str.find(c)`: index of the first occurrence of `c`, or `-1`. -/
def pyFind (s : String) (c : Char) : Int :=
  match s.toList.findIdx? (fun x => x = c) with
  | some i => Int.ofNat i
  | none => -1

/-- `str.rfind(c)`: index of the last occurrence of `c`, or `-1`. -/
def pyRfind (s : String) (c : Char) : Int :=
  match s.toList.reverse.findIdx? (fun x => x = c) with
  | some i => Int.ofNat (s.toList.length - 1 - i)
  | none => -1

/-- `s[i:j]` for code-point indices `i ≤ j` (out-of-range is clamped). -/
def pySlice (s : String) (i j : Nat) : String :=
  String.mk ((s.toList.drop i).take (j - i))

/-- `s[:n]` (also Python `s[:n]` clamps at the end of the string). -/
def pyTake (s : String) (n : Nat) : String :=
  String.mk (s.toList.take n)

/-- `s[n:]`. -/
def pyDrop (s : String) (n : Nat) : String :=
  String.mk (s.toList.drop n)

/-- Characters removed by Python `str.strip()` (the ASCII ones). -/
def isPyWs (c : Char) : Bool :=
  c = ' ' ∨ c = '\t' ∨ c = '\n' ∨ c = '\r' ∨ c = Char.ofNat 11 ∨ c = Char.ofNat 12

/-- `str.strip()`. -/
def pyStrip (s : String) : String :=
  String.mk (((s.toList.dropWhile isPyWs).reverse.dropWhile isPyWs).reverse)

/-- `str.startswith(p)`. -/
def pyStartsWith (s p : String) : Bool :=
  p.toList.isPrefixOf s.toList

/-- Python `sub in s` (substring containment). -/
def strContains (s sub : String) : Bool :=
  s.toList.tails.any (fun t => sub.toList.isPrefixOf t)

/-- `str.split(sep)` for a single-character separator, accumulator form. -/
def pySplitAux (sep : Char) : List Char → List Char → List String
  | [], acc => [String.mk acc.reverse]
  | c :: cs, acc =>
    if c = sep then String.mk acc.reverse :: pySplitAux sep cs []
    else pySplitAux sep cs (c :: acc)

/-- `str.split(sep)` for a single-character separator. -/
def pySplit (s : String) (sep : Char) : List String :=
  pySplitAux sep s.toList []

/-- Truthiness of an optional Python string: `None` and `""` are falsy. -/
def pyTruthy : Option String → Bool
  | none => false
  | some s => s ≠ ""

/-! ### JSON values and a parser modelling `json.loads`

`_generate_flashcards` feeds the bracketed substring of the raw response
to `json.loads`.  We model JSON values (numbers are kept as their lexeme,
their numeric value is never inspected by the program) and implement a
strict recursive-descent parser with the same acceptance behaviour:
the four JSON whitespace characters, `true/false/null` and the CPython
extensions `NaN`, `Infinity` and negative infinity, strict string escapes, and failure
on trailing garbage. -/

inductive JValue where
  | null : JValue
  | bool (b : Bool) : JValue
  | num (lexeme : String) : JValue
  | str (s : String) : JValue
  | arr (elems : List JValue) : JValue
  | obj (members : List (String × JValue)) : JValue

/-- JSON whitespace (`json.decoder` skips exactly space, tab, LF, CR). -/
def skipWs : List Char → List Char
  | [] => []
  | c :: cs =>
    if c = ' ' ∨ c = '\t' ∨ c = '\n' ∨ c = '\r' then skipWs cs else c :: cs

/-- Value of a hex digit, if any. -/
def hexVal (c : Char) : Option Nat :=
  if '0' ≤ c ∧ c ≤ '9' then some (c.toNat - '0'.toNat)
  else if 'a' ≤ c ∧ c ≤ 'f' then some (c.toNat - 'a'.toNat + 10)
  else if 'A' ≤ c ∧ c ≤ 'F' then some (c.toNat - 'A'.toNat + 10)
  else none

/-- Body of a JSON string after the opening quote: returns the decoded
string and the remaining input.  Unescaped control characters are
rejected, as in strict `json.loads`. -/
def parseStringAux : List Char → String → Option (String × List Char)
  | [], _ => none
  | c :: rest, acc =>
    if c = '"' then some (acc, rest)
    else if c = '\\' then
      match rest with
      | [] => none
      | e :: rest2 =>
        if e = '"' then parseStringAux rest2 (acc.push '"')
        else if e = '\\' then parseStringAux rest2 (acc.push '\\')
        else if e = '/' then parseStringAux rest2 (acc.push '/')
        else if e = 'b' then parseStringAux rest2 (acc.push (Char.ofNat 8))
        else if e = 'f' then parseStringAux rest2 (acc.push (Char.ofNat 12))
        else if e = 'n' then parseStringAux rest2 (acc.push '\n')
        else if e = 'r' then parseStringAux rest2 (acc.push '\r')
        else if e = 't' then parseStringAux rest2 (acc.push '\t')
        else if e = 'u' then
          match rest2 with
          | h1 :: h2 :: h3 :: h4 :: rest3 =>
            match hexVal h1, hexVal h2, hexVal h3, hexVal h4 with
            | some a, some b, some c2, some d =>
              parseStringAux rest3
                (acc.push (Char.ofNat (((a * 16 + b) * 16 + c2) * 16 + d)))
            | _, _, _, _ => none
          | _ => none
        else none
    else if c.toNat < 32 then none
    else parseStringAux rest (acc.push c)

/-- Longest digit run. -/
def lexDigits (cs : List Char) : List Char × List Char :=
  cs.span Char.isDigit

/-- JSON integer part: `0` or a nonzero digit followed by digits. -/
def lexIntPart : List Char → Option (List Char × List Char)
  | [] => none
  | c :: rest =>
    if c = '0' then some ([c], rest)
    else if c.isDigit then
      match lexDigits rest with
      | (ds, r) => some (c :: ds, r)
    else none

/-- JSON fraction part (possibly absent; a bare dot is rejected). -/
def lexFracPart : List Char → Option (List Char × List Char)
  | '.' :: rest =>
    match lexDigits rest with
    | ([], _) => none
    | (ds, r) => some ('.' :: ds, r)
  | cs => some ([], cs)

/-- JSON exponent part (possibly absent). -/
def lexExpPart : List Char → Option (List Char × List Char)
  | [] => some ([], [])
  | c :: rest =>
    if c = 'e' ∨ c = 'E' then
      match rest with
      | [] => none
      | s :: rest2 =>
        if s = '+' ∨ s = '-' then
          match lexDigits rest2 with
          | ([], _) => none
          | (ds, r) => some (c :: s :: ds, r)
        else
          match lexDigits rest with
          | ([], _) => none
          | (ds, r) => some (c :: ds, r)
    else some ([], c :: rest)

/-- A JSON number lexeme. -/
def lexNumber (cs : List Char) : Option (String × List Char) :=
  let signed := match cs with
    | '-' :: rest => (['-'], rest)
    | _ => (([] : List Char), cs)
  match lexIntPart signed.2 with
  | none => none
  | some (ip, r1) =>
    match lexFracPart r1 with
    | none => none
    | some (fp, r2) =>
      match lexExpPart r2 with
      | none => none
      | some (ep, r3) => some (String.mk (signed.1 ++ ip ++ fp ++ ep), r3)

mutual

/-- One JSON value, fuel-indexed.  `fuel` bounds the container nesting
and element count; `parseJson` supplies more fuel than any input can
consume. -/
def parseValue : Nat → List Char → Option (JValue × List Char)
  | 0, _ => none
  | Nat.succ fuel, cs0 =>
    let cs := skipWs cs0
    if "true".toList.isPrefixOf cs then some (JValue.bool true, cs.drop 4)
    else if "false".toList.isPrefixOf cs then some (JValue.bool false, cs.drop 5)
    else if "null".toList.isPrefixOf cs then some (JValue.null, cs.drop 4)
    else if "NaN".toList.isPrefixOf cs then some (JValue.num "NaN", cs.drop 3)
    else if "Infinity".toList.isPrefixOf cs then some (JValue.num "Infinity", cs.drop 8)
    else if "-Infinity".toList.isPrefixOf cs then some (JValue.num "-Infinity", cs.drop 9)
    else
      match cs with
      | [] => none
      | c :: rest =>
        if c = '"' then
          match parseStringAux rest "" with
          | some (s, r) => some (JValue.str s, r)
          | none => none
        else if c = '[' then
          match skipWs rest with
          | ']' :: r2 => some (JValue.arr [], r2)
          | cs2 =>
            match parseElems fuel cs2 with
            | some (vs, r) => some (JValue.arr vs, r)
            | none => none
        else if c = Char.ofNat 123 then
          match skipWs rest with
          | [] => none
          | c2 :: r2 =>
            if c2 = Char.ofNat 125 then some (JValue.obj [], r2)
            else
              match parseMembers fuel (c2 :: r2) with
              | some (ms, r) => some (JValue.obj ms, r)
              | none => none
        else
          match lexNumber (c :: rest) with
          | some (lit, r) => some (JValue.num lit, r)
          | none => none

/-- Comma-separated values up to the closing bracket. -/
def parseElems : Nat → List Char → Option (List JValue × List Char)
  | 0, _ => none
  | Nat.succ fuel, cs =>
    match parseValue fuel cs with
    | none => none
    | some (v, r1) =>
      match skipWs r1 with
      | ',' :: r2 =>
        match parseElems fuel r2 with
        | some (vs, r3) => some (v :: vs, r3)
        | none => none
      | ']' :: r2 => some ([v], r2)
      | _ => none

/-- Comma-separated `"key": value` members up to the closing brace. -/
def parseMembers : Nat → List Char → Option (List (String × JValue) × List Char)
  | 0, _ => none
  | Nat.succ fuel, cs =>
    match skipWs cs with
    | '"' :: rest =>
      match parseStringAux rest "" with
      | none => none
      | some (k, r1) =>
        match skipWs r1 with
        | ':' :: r2 =>
          match parseValue fuel r2 with
          | none => none
          | some (v, r3) =>
            match skipWs r3 with
            | ',' :: r4 =>
              match parseMembers fuel r4 with
              | some (ms, r5) => some ((k, v) :: ms, r5)
              | none => none
            | c :: r4 =>
              if c = Char.ofNat 125 then some ([(k, v)], r4) else none
            | [] => none
        | _ => none
    | _ => none

end

/-- `json.loads`: one JSON document, whole-input, surrounded by optional
whitespace. -/
def parseJson (s : String) : Option JValue :=
  let cs := s.toList
  match parseValue (2 * cs.length + 2) cs with
  | some (v, rest) => if (skipWs rest).isEmpty then some v else none
  | none => none

/-! ### `EnhancedLLMProcessor` (src/models/enhanced_llm_processor.py)

A generation call (`self.llm.invoke(...)` under the provider-specific
chat/completion dispatch) is modelled as an oracle
`String → Except String String`: `Except.ok` carries the raw response
text, `Except.error` carries `str(e)` of the raised exception.  The
prompt handed to the oracle is the exact f-string of the source. -/

/-- ASCII apostrophe, kept out of string literals. -/
def apos : String := (Char.ofNat 39).toString

/-- The summary f-string of `_generate_summary` (lines 172-180). -/
def summary_prompt (text : String) : String :=
  "\n        Please summarize the following academic notes in a concise but comprehensive manner.\n        Focus on the main concepts, key points, and important details.\n        \n        NOTES:\n        " ++ text ++ "\n        \n        SUMMARY:\n        "

/-- The flashcard f-string of `_generate_flashcards` (lines 195-204). -/
def flashcard_prompt (text : String) : String :=
  "\n        Create 5 question-answer flashcards based on the following academic notes.\n        Focus on the most important concepts and facts.\n        Format your response as a JSON array of objects with " ++ apos ++ "question" ++ apos ++ " and " ++ apos ++ "answer" ++ apos ++ " fields.\n        \n        NOTES:\n        " ++ text ++ "\n        \n        FLASHCARDS (JSON format):\n        "

/-- `max_input_length` of `process_notes` (line 155). -/
def max_input_length : Nat := 4000

/-- The truncation step of `process_notes` (lines 154-157):
`if len(text) > max_input_length: text = text[:max_input_length] + "..."`. -/
def truncate_input (text : String) : String :=
  if text.length > max_input_length then pyTake text max_input_length ++ "..." else text

/-- The try/except body of `_generate_summary` (lines 182-191): the raw
response content is returned as is; a raised exception becomes the
placeholder string. -/
def normalize_summary : Except String String → String
  | Except.ok response => response
  | Except.error e => "Error generating summary: " ++ e

/-- `_generate_summary` (lines 170-191). -/
def generate_summary (gen : String → Except String String) (text : String) : String :=
  normalize_summary (gen (summary_prompt text))

/-- A `{"question": ..., "answer": ...}` record as built by the fallback
paths of `_generate_flashcards`. -/
def mkCard (question answer : String) : JValue :=
  JValue.obj [("question", JValue.str question), ("answer", JValue.str answer)]

/-- The default flashcard of `_generate_flashcards` (lines 228-233). -/
def default_flashcard : JValue :=
  mkCard "What are the main topics covered in these notes?"
    "The notes cover various academic concepts. Please review the summary for details."

/-- The JSON-extraction step of `_generate_flashcards` (lines 214-225):
`json_start = response_text.find('[')`, `json_end = response_text.rfind(']') + 1`,
and `json.loads` on the slice when `json_start >= 0 and json_end > json_start`.
`none` covers both a missing bracket pair and a `JSONDecodeError`. -/
def extractJson (response_text : String) : Option JValue :=
  let json_start := pyFind response_text '['
  let json_end := pyRfind response_text ']' + 1
  if 0 ≤ json_start ∧ json_start < json_end then
    parseJson (pySlice response_text json_start.toNat json_end.toNat)
  else none

/-- The try/except body of `_generate_flashcards` (lines 206-241): a
successfully decoded array is returned verbatim (`return flashcards`),
any extraction or decode failure falls through to the single default
flashcard, and a raised generation exception becomes the single error
flashcard.  The slice handed to `json.loads` starts at a `[`, so a
successful decode is always an array; the wildcard arm is unreachable. -/
def normalize_flashcards : Except String String → List JValue
  | Except.error e =>
    [mkCard "Error creating flashcards" ("An error occurred: " ++ e)]
  | Except.ok response_text =>
    match extractJson response_text with
    | some (JValue.arr cards) => cards
    | _ => [default_flashcard]

/-- `_generate_flashcards` (lines 193-241). -/
def generate_flashcards (gen : String → Except String String) (text : String) : List JValue :=
  normalize_flashcards (gen (flashcard_prompt text))

/-- The dictionary returned by `process_notes` (lines 165-168). -/
structure ProcessingResult where
  summary : String
  flashcards : List JValue

/-- `process_notes` (lines 144-168): truncate, then generate and
normalize the summary and the flashcards.  `gs` and `gc` are the two
generation calls. -/
def process_notes (gs gc : String → Except String String) (text : String) : ProcessingResult :=
  { summary := generate_summary gs (truncate_input text)
    flashcards := generate_flashcards gc (truncate_input text) }

/-! ### `LLMProcessor.generate_flashcards` (src/models/llm_processor.py)

The line-tagged parser (lines 103-146).  The raw chain output is split
on newlines; the loop state is the pending `current_question` /
`current_answer` pair; a pending pair is flushed when a new `Q:` line
starts and once more after the loop. -/

structure Flashcard where
  question : String
  answer : String
deriving DecidableEq, Repr

/-- The flush step `if current_question and current_answer: flashcards.append(...)`
(lines 127-131 and 140-144); Python truthiness drops `None` and `""`. -/
def flushPair (q a : Option String) : List Flashcard :=
  if pyTruthy q ∧ pyTruthy a then [⟨q.getD "", a.getD ""⟩] else []

/-- The `for line in raw_flashcards.split('\n')` loop (lines 120-137)
followed by the final flush (lines 139-144). -/
def fcLoop : List String → Option String → Option String → List Flashcard
  | [], q, a => flushPair q a
  | line :: rest, q, a =>
    let line := pyStrip line
    if line = "" then fcLoop rest q a
    else if pyStartsWith line "Q:" then
      flushPair q a ++ fcLoop rest (some (pyStrip (pyDrop line 2))) none
    else if pyStartsWith line "A:" then
      fcLoop rest q (some (pyStrip (pyDrop line 2)))
    else fcLoop rest q a

/-- `LLMProcessor.generate_flashcards` applied to the raw chain output. -/
def generate_flashcards_tagged (raw_flashcards : String) : List Flashcard :=
  fcLoop (pySplit raw_flashcards '\n') none none

/-! ### `LLMProviderManager` (src/models/llm_provider.py)

The registry built in `__init__` (lines 17-63), as an insertion-ordered
association list from provider id to configuration, and the lookup
helpers and `create_llm` factory over it. -/

structure ModelDescriptor where
  id : String
  name : String
  description : String
deriving DecidableEq

structure ProviderInfo where
  name : String
  models : List ModelDescriptor
  requires_api_key : Bool
  api_key_name : Option String
  api_key_instruction : String
deriving DecidableEq

/-- `self.providers` after `__init__` (the three inline entries plus the
appended `local` entry). -/
def providers : List (String × ProviderInfo) :=
  [("huggingface",
    { name := "Hugging Face"
      models :=
        [{ id := "google/flan-t5-base", name := "Flan-T5 Base",
           description := "Google" ++ apos ++ "s Flan-T5 Base model - Good general purpose model" },
         { id := "google/flan-t5-large", name := "Flan-T5 Large",
           description := "Google" ++ apos ++ "s Flan-T5 Large model - Better quality but slower" },
         { id := "facebook/bart-large-cnn", name := "BART Large CNN",
           description := "Facebook" ++ apos ++ "s BART model fine-tuned on CNN articles - Good for summarization" },
         { id := "EleutherAI/gpt-neo-1.3B", name := "GPT-Neo 1.3B",
           description := "EleutherAI" ++ apos ++ "s GPT-Neo model - Open source alternative to GPT models" }]
      requires_api_key := true
      api_key_name := some "HUGGINGFACE_API_TOKEN"
      api_key_instruction := "Get your API key from https://huggingface.co/settings/tokens" }),
   ("openai",
    { name := "OpenAI"
      models :=
        [{ id := "gpt-3.5-turbo", name := "GPT-3.5 Turbo",
           description := "Fast and efficient model for most tasks" },
         { id := "gpt-4", name := "GPT-4",
           description := "Most powerful model, better for complex tasks but slower and more expensive" }]
      requires_api_key := true
      api_key_name := some "OPENAI_API_KEY"
      api_key_instruction := "Get your API key from https://platform.openai.com/api-keys" }),
   ("anthropic",
    { name := "Anthropic"
      models :=
        [{ id := "claude-2", name := "Claude 2",
           description := "Anthropic" ++ apos ++ "s Claude 2 model - Good for thoughtful, nuanced responses" },
         { id := "claude-instant", name := "Claude Instant",
           description := "Faster, more efficient version of Claude" }]
      requires_api_key := true
      api_key_name := some "ANTHROPIC_API_KEY"
      api_key_instruction := "Get your API key from https://console.anthropic.com/settings/keys" }),
   ("local",
    { name := "Local Models"
      models :=
        [{ id := "local/llama2", name := "Llama 2 (Local)",
           description := "Meta" ++ apos ++ "s Llama 2 model running locally - Requires separate installation" }]
      requires_api_key := false
      api_key_name := none
      api_key_instruction := "No API key needed. Ensure you have the model installed locally." })]

/-- `get_models_for_provider` (lines 98-110). -/
def get_models_for_provider (provider_id : String) : List ModelDescriptor :=
  match List.lookup provider_id providers with
  | some provider => provider.models
  | none => []

/-- `requires_api_key` (lines 143-155). -/
def requires_api_key (provider_id : String) : Bool :=
  match List.lookup provider_id providers with
  | some provider => provider.requires_api_key
  | none => false

/-- `get_api_key_name` (lines 157-169). -/
def get_api_key_name (provider_id : String) : Option String :=
  match List.lookup provider_id providers with
  | some provider => if provider.requires_api_key then provider.api_key_name else none
  | none => none

/-! ### Client construction

A backend client constructor call (`HuggingFaceHub(...)`, `ChatOpenAI(...)`,
`OpenAI(...)`, `ChatAnthropic(...)`, `ChatGoogleGenerativeAI(...)`) is an
effect at the provider network boundary.  We record each attempted call
and let an oracle decide whether construction succeeds (`Except.ok`,
yielding a client) or raises (`Except.error` with `str(e)`).  The process
environment `os.environ` is an association list. -/

abbrev Env := List (String × String)

/-- `os.environ[k] = v`. -/
def setEnv (env : Env) (k v : String) : Env :=
  (k, v) :: env.filter (fun p => p.1 ≠ k)

/-- A backend constructor invocation, with the arguments the source
passes (temperature as a rational, token/length bound as a natural). -/
inductive CtorCall where
  | huggingFaceHub (repo_id : String) (temperature : Rat) (max_length : Nat)
  | chatOpenAI (model_name : String) (temperature : Rat) (max_tokens : Nat)
  | openAI (model_name : String) (temperature : Rat) (max_tokens : Nat)
  | chatAnthropic (model : String) (temperature : Rat) (max_tokens : Nat)
  | chatGoogle (model : String) (temperature : Rat) (max_output_tokens : Nat)

/-- A constructed backend client, characterized by its construction call. -/
structure Client where
  ctor : CtorCall

/-- Outcome of `LLMProviderManager.create_llm`: the returned value
(`Except.error` would be an uncaught exception, `Except.ok none` the
`return None` paths), the process environment afterwards, and the
backend constructor calls that were attempted. -/
structure CreateResult where
  result : Except String (Option Client)
  env : Env
  attempted : List CtorCall

/-- The credential-staging prologue of `create_llm` (lines 200-204):
`if api_key and self.requires_api_key(provider_id): os.environ[name] = api_key`. -/
def stage_api_key (env : Env) (provider_id : String) (api_key : Option String) : Env :=
  match api_key with
  | none => env
  | some k =>
    if k ≠ "" ∧ requires_api_key provider_id then
      match get_api_key_name provider_id with
      | some api_key_name => setEnv env api_key_name k
      | none => env
    else env

/-- `LLMProviderManager.create_llm` (lines 185-237).  The `try` block
covers every constructor call; `except Exception` prints and returns
`None`; `anthropic` and `local` return `None` inside the `try`; any
other provider id falls through to the trailing `return None`. -/
def create_llm (oracle : CtorCall → Except String Client) (env : Env)
    (provider_id model_id : String) (api_key : Option String)
    (temperature : Rat) (max_tokens : Nat) : CreateResult :=
  let env1 := stage_api_key env provider_id api_key
  if provider_id = "huggingface" then
    let call := CtorCall.huggingFaceHub model_id temperature max_tokens
    match oracle call with
    | Except.ok c => ⟨Except.ok (some c), env1, [call]⟩
    | Except.error _ => ⟨Except.ok none, env1, [call]⟩
  else if provider_id = "openai" then
    let call :=
      if strContains model_id "gpt-3.5" ∨ strContains model_id "gpt-4" then
        CtorCall.chatOpenAI model_id temperature max_tokens
      else
        CtorCall.openAI model_id temperature max_tokens
    match oracle call with
    | Except.ok c => ⟨Except.ok (some c), env1, [call]⟩
    | Except.error _ => ⟨Except.ok none, env1, [call]⟩
  else if provider_id = "anthropic" then
    ⟨Except.ok none, env1, []⟩
  else if provider_id = "local" then
    ⟨Except.ok none, env1, []⟩
  else
    ⟨Except.ok none, env1, []⟩

/-! `EnhancedLLMProcessor._initialize_llm` and the per-provider
initializers (lines 38-142).  Package imports are assumed installed (the
`except ImportError` arms are not modelled).  Inside each initializer the
credential check and the constructor call sit in a `try` whose
`except Exception as e` re-raises `ValueError("Failed to initialize ...: "
+ str(e))`, so the missing-key `ValueError` surfaces with that prefix. -/

/-- Outcome of an initializer: the constructed client or the raised
exception message, the environment afterwards, and the attempted
constructor calls. -/
structure InitResult where
  result : Except String Client
  env : Env
  attempted : List CtorCall

/-- `_initialize_openai` (lines 53-72). -/
def initialize_openai (oracle : CtorCall → Except String Client) (env : Env)
    (model_id : String) (api_key : Option String)
    (temperature : Rat) (max_tokens : Nat) : InitResult :=
  if pyTruthy api_key then
    let env1 := setEnv env "OPENAI_API_KEY" (api_key.getD "")
    let call := CtorCall.chatOpenAI model_id temperature max_tokens
    match oracle call with
    | Except.ok c => ⟨Except.ok c, env1, [call]⟩
    | Except.error e =>
      ⟨Except.error ("Failed to initialize OpenAI LLM: " ++ e), env1, [call]⟩
  else
    ⟨Except.error "Failed to initialize OpenAI LLM: API key is required for OpenAI", env, []⟩

/-- `_initialize_huggingface` (lines 74-95). -/
def initialize_huggingface (oracle : CtorCall → Except String Client) (env : Env)
    (model_id : String) (api_key : Option String)
    (temperature : Rat) (max_tokens : Nat) : InitResult :=
  if pyTruthy api_key then
    let env1 := setEnv env "HUGGINGFACEHUB_API_TOKEN" (api_key.getD "")
    let call := CtorCall.huggingFaceHub model_id temperature max_tokens
    match oracle call with
    | Except.ok c => ⟨Except.ok c, env1, [call]⟩
    | Except.error e =>
      ⟨Except.error ("Failed to initialize Hugging Face LLM: " ++ e), env1, [call]⟩
  else
    ⟨Except.error "Failed to initialize Hugging Face LLM: API key is required for Hugging Face", env, []⟩

/-- `_initialize_anthropic` (lines 97-116). -/
def initialize_anthropic (oracle : CtorCall → Except String Client) (env : Env)
    (model_id : String) (api_key : Option String)
    (temperature : Rat) (max_tokens : Nat) : InitResult :=
  if pyTruthy api_key then
    let env1 := setEnv env "ANTHROPIC_API_KEY" (api_key.getD "")
    let call := CtorCall.chatAnthropic model_id temperature max_tokens
    match oracle call with
    | Except.ok c => ⟨Except.ok c, env1, [call]⟩
    | Except.error e =>
      ⟨Except.error ("Failed to initialize Anthropic LLM: " ++ e), env1, [call]⟩
  else
    ⟨Except.error "Failed to initialize Anthropic LLM: API key is required for Anthropic", env, []⟩

/-- `_initialize_google` (lines 118-137). -/
def initialize_google (oracle : CtorCall → Except String Client) (env : Env)
    (model_id : String) (api_key : Option String)
    (temperature : Rat) (max_tokens : Nat) : InitResult :=
  if pyTruthy api_key then
    let env1 := setEnv env "GOOGLE_API_KEY" (api_key.getD "")
    let call := CtorCall.chatGoogle model_id temperature max_tokens
    match oracle call with
    | Except.ok c => ⟨Except.ok c, env1, [call]⟩
    | Except.error e =>
      ⟨Except.error ("Failed to initialize Google AI LLM: " ++ e), env1, [call]⟩
  else
    ⟨Except.error "Failed to initialize Google AI LLM: API key is required for Google AI", env, []⟩

/-- `_initialize_llm` (lines 38-51) with `_initialize_local`
(lines 139-142, `raise NotImplementedError`) and the trailing
`raise ValueError(f"Unsupported provider: ...")` inlined. -/
def initialize_llm (oracle : CtorCall → Except String Client) (env : Env)
    (provider_id model_id : String) (api_key : Option String)
    (temperature : Rat) (max_tokens : Nat) : InitResult :=
  if provider_id = "openai" then
    initialize_openai oracle env model_id api_key temperature max_tokens
  else if provider_id = "huggingface" then
    initialize_huggingface oracle env model_id api_key temperature max_tokens
  else if provider_id = "anthropic" then
    initialize_anthropic oracle env model_id api_key temperature max_tokens
  else if provider_id = "google" then
    initialize_google oracle env model_id api_key temperature max_tokens
  else if provider_id = "local" then
    ⟨Except.error "Local models are not yet supported in this version", env, []⟩
  else
    ⟨Except.error ("Unsupported provider: " ++ provider_id), env, []⟩

/-! ### Concrete oracles used by closed evaluations -/

/-- A generation call that always succeeds with the fixed text `s`. -/
def gen_const_ok (s : String) : String → Except String String := fun _ => Except.ok s

/-- A generation call that always raises with message `e`. -/
def gen_const_err (e : String) : String → Except String String := fun _ => Except.error e

/-- A backend constructor that always raises. -/
def ctor_fail : CtorCall → Except String Client := fun _ => Except.error "connection error"

/-- A backend constructor that always succeeds. -/
def ctor_ok : CtorCall → Except String Client := fun call => Except.ok ⟨call⟩

/-- A 4001-character note, one character over the truncation limit. -/
def big_note : String := String.mk (List.replicate 4001 'x')

/-! ### Helper lemmas -/

/-- The summary error placeholder is never the empty string. -/
theorem error_summary_ne_empty (e : String) :
    "Error generating summary: " ++ e ≠ "" := by
  intro h
  have h2 := congrArg String.length h
  rw [String.length_append] at h2
  have h3 : ("Error generating summary: " : String).length = 26 := rfl
  have h4 : ("" : String).length = 0 := rfl
  omega

/-- `normalize_flashcards` yields the empty list exactly when the call
succeeded and the bracketed substring decodes to the empty JSON array. -/
theorem normalize_flashcards_eq_nil_iff (r : Except String String) :
    normalize_flashcards r = [] ↔
      ∃ raw, r = Except.ok raw ∧ extractJson raw = some (JValue.arr []) := by
  cases r with
  | error e => simp [normalize_flashcards]
  | ok raw =>
    cases h : extractJson raw with
    | none => simp [normalize_flashcards, h]
    | some v =>
      cases v <;> simp [normalize_flashcards, h]

/-- The factory never touches the environment beyond the staging
prologue. -/
theorem create_llm_env (oracle : CtorCall → Except String Client) (env : Env)
    (provider_id model_id : String) (api_key : Option String)
    (t : Rat) (m : Nat) :
    (create_llm oracle env provider_id model_id api_key t m).env =
      stage_api_key env provider_id api_key := by
  simp only [create_llm]
  repeat' split
  all_goals rfl

/-- The factory never propagates an exception. -/
theorem create_llm_result_ok (oracle : CtorCall → Except String Client) (env : Env)
    (provider_id model_id : String) (api_key : Option String)
    (t : Rat) (m : Nat) :
    ∃ r, (create_llm oracle env provider_id model_id api_key t m).result = Except.ok r := by
  simp only [create_llm]
  repeat' split
  all_goals exact ⟨_, rfl⟩

/-- A falsy credential is never staged. -/
theorem stage_api_key_falsy (env : Env) (provider_id : String) (api_key : Option String)
    (h : pyTruthy api_key = false) : stage_api_key env provider_id api_key = env := by
  cases api_key with
  | none => rfl
  | some k =>
    have hk : k = "" := by simpa [pyTruthy] using h
    simp [stage_api_key, hk]

/-- For the `openai` provider the factory attempts exactly one
constructor call. -/
theorem create_llm_openai_attempted (oracle : CtorCall → Except String Client) (env : Env)
    (model_id : String) (api_key : Option String) (t : Rat) (m : Nat) :
    (create_llm oracle env "openai" model_id api_key t m).attempted =
      [if strContains model_id "gpt-3.5" ∨ strContains model_id "gpt-4" then
          CtorCall.chatOpenAI model_id t m
        else CtorCall.openAI model_id t m] := by
  by_cases hc : (strContains model_id "gpt-3.5" = true ∨ strContains model_id "gpt-4" = true)
  · cases ho : oracle (CtorCall.chatOpenAI model_id t m) <;> simp [create_llm, hc, ho]
  · cases ho : oracle (CtorCall.openAI model_id t m) <;> simp [create_llm, hc, ho]

/-! ### Claims -/

/-- Claim C5 (confirmed).  Line-tagged flashcard parsing of
`LLMProcessor.generate_flashcards`: a single left-to-right pass in which
a `Q:` line starts a new pending question and an `A:` line completes it,
emitted once both sides are non-empty; blank lines are skipped; a
question without a following answer is dropped; order is preserved.  In
particular the two inputs of the claim yield exactly the stated cards. -/
theorem C5_line_tagged_parsing :
    (generate_flashcards_tagged "Q: A?\nA: B\n\nQ: C?\nA: D" =
      [{ question := "A?", answer := "B" }, { question := "C?", answer := "D" }])
  ∧ (generate_flashcards_tagged "Q: A?\nA: B\nQ: dangling?" =
      [{ question := "A?", answer := "B" }])
  ∧ (∀ lines q a line, pyStrip line = "" →
      fcLoop (line :: lines) q a = fcLoop lines q a)
  ∧ (∀ q, fcLoop [] q none = []) := by
  refine ⟨by decide, by decide, ?_, ?_⟩
  · intro lines q a line h
    simp [fcLoop, h]
  · intro q
    simp [fcLoop, flushPair, pyTruthy]

/-- Witness for C5: the blank-line-skipping clause at a concrete line. -/
theorem C5_line_tagged_parsing_witness :
    fcLoop ("" :: ["A: B"]) (some "A?") none = fcLoop ["A: B"] (some "A?") none :=
  C5_line_tagged_parsing.2.2.1 ["A: B"] (some "A?") none "" (by decide)

/-- Claim C6 (corrected), counterexample: the code returns the raw
response verbatim, without the trimming the claim describes — on the
raw text `" x "` the claimed result is the stripped `"x"`, the code
keeps the surrounding whitespace. -/
theorem C6_no_trim_counterexample :
    normalize_summary (Except.ok " x ") ≠ pyStrip " x " := by decide

/-- Claim C6 (corrected, amended): summary normalization returns the raw
generated text verbatim with no whitespace trimming; a failed generation
call is replaced by the non-empty error placeholder. -/
theorem C6_summary_verbatim :
    (∀ raw, normalize_summary (Except.ok raw) = raw)
  ∧ (∀ e, normalize_summary (Except.error e) = "Error generating summary: " ++ e
      ∧ normalize_summary (Except.error e) ≠ "") := by
  exact ⟨fun raw => rfl, fun e => ⟨rfl, error_summary_ne_empty e⟩⟩

/-- Witness for C6 at concrete inputs. -/
theorem C6_summary_verbatim_witness :
    normalize_summary (Except.ok "  abc  ") = "  abc  " ∧
    normalize_summary (Except.error "boom") ≠ "" :=
  ⟨C6_summary_verbatim.1 "  abc  ", (C6_summary_verbatim.2 "boom").2⟩

/-- Claim C7 (confirmed).  Input truncation in `process_notes`: text
longer than 4000 characters is hard-cut to its first 4000 characters
plus an ellipsis marker before being inserted into both generation
prompts; text of at most 4000 characters is used unchanged. -/
theorem C7_truncation (gs gc : String → Except String String) (text : String) :
    (4000 < text.length →
      process_notes gs gc text =
        { summary := generate_summary gs (pyTake text 4000 ++ "...")
          flashcards := generate_flashcards gc (pyTake text 4000 ++ "...") })
  ∧ (text.length ≤ 4000 →
      process_notes gs gc text =
        { summary := generate_summary gs text
          flashcards := generate_flashcards gc text }) := by
  constructor
  · intro h
    simp [process_notes, truncate_input, max_input_length, h]
  · intro h
    simp [process_notes, truncate_input, max_input_length, Nat.not_lt.mpr h]

/-- Witness for C7: a 4001-character note is truncated, a 2-character
note is passed through. -/
theorem C7_truncation_witness :
    (4000 < big_note.length ∧
      process_notes (gen_const_ok "s") (gen_const_ok "[]") big_note =
        { summary := generate_summary (gen_const_ok "s") (pyTake big_note 4000 ++ "...")
          flashcards := generate_flashcards (gen_const_ok "[]") (pyTake big_note 4000 ++ "...") })
  ∧ ("ab".length ≤ 4000 ∧
      process_notes (gen_const_ok "s") (gen_const_ok "[]") "ab" =
        { summary := generate_summary (gen_const_ok "s") "ab"
          flashcards := generate_flashcards (gen_const_ok "[]") "ab" }) := by
  have hlen : big_note.length = 4001 := by
    show (List.replicate 4001 'x').asString.length = 4001
    rw [List.length_asString, List.length_replicate]
  have h : 4000 < big_note.length := by omega
  exact ⟨⟨h, (C7_truncation _ _ big_note).1 h⟩,
         ⟨by decide, (C7_truncation _ _ "ab").2 (by decide)⟩⟩

/-- Claim C9 (confirmed).  The registry catalog: provider ids are the
four listed ones and globally unique; for every catalogued provider,
`get_models_for_provider` returns a non-empty sequence whose model ids
are unique within the provider. -/
theorem C9_registry_catalog :
    providers.map Prod.fst = ["huggingface", "openai", "anthropic", "local"]
  ∧ (providers.map Prod.fst).Nodup
  ∧ providers.all (fun provider =>
      decide (get_models_for_provider provider.1 ≠ []) &&
      decide (((get_models_for_provider provider.1).map ModelDescriptor.id).Nodup)) = true := by
  exact ⟨rfl, by decide, by decide⟩

/-- Claim C1 (corrected), counterexample: when the flashcard generation
call succeeds with the response text `"[]"`, `json.loads` succeeds on the
empty array and `process_notes` returns it verbatim — a ProcessingResult
with an empty flashcard sequence, which the claim rules out. -/
theorem C1_empty_flashcards_counterexample :
    (process_notes (gen_const_ok "s") (gen_const_ok "[]") "note").flashcards = [] := by
  rfl

/-- Claim C1 (corrected, amended): the summary of a ProcessingResult is
always a string and is non-empty whenever the summary generation call
failed; the flashcard sequence is non-empty except in exactly one
reachable case — the flashcard generation call succeeded and the
bracketed substring of its response decodes to the empty JSON array,
which `process_notes` returns verbatim. -/
theorem C1_degraded_result (gs gc : String → Except String String) (text : String) :
    ((process_notes gs gc text).flashcards = [] ↔
      ∃ raw, gc (flashcard_prompt (truncate_input text)) = Except.ok raw ∧
        extractJson raw = some (JValue.arr []))
  ∧ (∀ e, gs (summary_prompt (truncate_input text)) = Except.error e →
      (process_notes gs gc text).summary ≠ "") := by
  constructor
  · simpa [process_notes, generate_flashcards] using
      normalize_flashcards_eq_nil_iff (gc (flashcard_prompt (truncate_input text)))
  · intro e h
    have : (process_notes gs gc text).summary = "Error generating summary: " ++ e := by
      simp [process_notes, generate_summary, normalize_summary, h]
    rw [this]
    exact error_summary_ne_empty e

/-- Witness for C1: a failed summary generation yields a non-empty
placeholder summary. -/
theorem C1_degraded_result_witness :
    (process_notes (gen_const_err "boom") (gen_const_ok "hi") "note").summary ≠ "" :=
  (C1_degraded_result (gen_const_err "boom") (gen_const_ok "hi") "note").2 "boom" rfl

/-- Claim C2 (corrected), counterexample: a response whose bracketed
substring is the empty JSON array is returned as an empty flashcard
sequence, not as the single synthetic fallback the claim requires. -/
theorem C2_empty_array_counterexample :
    normalize_flashcards (Except.ok "[]") = ([] : List JValue) := by
  rfl

/-- Claim C2 (corrected, amended): if no bracket pair is found or the
bracketed substring fails structural parsing, flashcard normalization
returns exactly one synthetic fallback card; if the substring decodes as
a JSON array the decoded elements are returned verbatim — including the
empty sequence when the array is empty; a raised generation call yields
exactly one card whose answer carries the error description, and nothing
is re-raised. -/
theorem C2_flashcard_normalization :
    (∀ text, extractJson text = none →
      normalize_flashcards (Except.ok text) = [default_flashcard])
  ∧ (∀ text, pyFind text '[' = -1 → extractJson text = none)
  ∧ (∀ text cards, extractJson text = some (JValue.arr cards) →
      normalize_flashcards (Except.ok text) = cards)
  ∧ (∀ e, normalize_flashcards (Except.error e) =
      [mkCard "Error creating flashcards" ("An error occurred: " ++ e)])
  ∧ normalize_flashcards
      (Except.ok "Sure! [ \x7b\"question\":\"X\",\"answer\":\"Y\"\x7d ] done") =
      [mkCard "X" "Y"] := by
  refine ⟨?_, ?_, ?_, fun e => rfl, by rfl⟩
  · intro text h
    simp [normalize_flashcards, h]
  · intro text h
    simp [extractJson, h]
  · intro text cards h
    simp [normalize_flashcards, h]

/-- Witness for C2: a response with no bracket pair yields the single
default fallback card. -/
theorem C2_flashcard_normalization_witness :
    normalize_flashcards (Except.ok "hello") = [default_flashcard] :=
  C2_flashcard_normalization.1 "hello" (by rfl)

/-- Claim C3 (corrected), counterexample: `LLMProviderManager.create_llm`
for the credential-requiring `openai` provider with an absent credential
does not fail with a ConfigurationError — it attempts the backend
constructor call (the network boundary is reached) and returns `None`
when that construction raises. -/
theorem C3_missing_credential_counterexample :
    (create_llm ctor_fail [] "openai" "gpt-4" none (1/2) 512).result = Except.ok none
  ∧ (create_llm ctor_fail [] "openai" "gpt-4" none (1/2) 512).attempted =
      [CtorCall.chatOpenAI "gpt-4" (1/2) 512] := by
  exact ⟨rfl, rfl⟩

/-- Claim C3 (corrected, amended): with an empty or absent credential for
a credential-requiring provider, `EnhancedLLMProcessor`'s initializers
raise a ValueError before any backend construction (no constructor call,
environment untouched); `LLMProviderManager.create_llm`, however, does
not fail — it stages nothing, still attempts exactly one backend
constructor call, and returns a value (None on constructor failure)
rather than raising. -/
theorem C3_missing_credential (oracle : CtorCall → Except String Client) (env : Env)
    (model_id : String) (api_key : Option String) (t : Rat) (m : Nat)
    (h : pyTruthy api_key = false) :
    (initialize_llm oracle env "openai" model_id api_key t m =
      ⟨Except.error "Failed to initialize OpenAI LLM: API key is required for OpenAI", env, []⟩)
  ∧ (initialize_llm oracle env "huggingface" model_id api_key t m =
      ⟨Except.error "Failed to initialize Hugging Face LLM: API key is required for Hugging Face", env, []⟩)
  ∧ (initialize_llm oracle env "anthropic" model_id api_key t m =
      ⟨Except.error "Failed to initialize Anthropic LLM: API key is required for Anthropic", env, []⟩)
  ∧ (initialize_llm oracle env "google" model_id api_key t m =
      ⟨Except.error "Failed to initialize Google AI LLM: API key is required for Google AI", env, []⟩)
  ∧ ((create_llm oracle env "openai" model_id api_key t m).env = env)
  ∧ ((create_llm oracle env "openai" model_id api_key t m).attempted ≠ [])
  ∧ (∃ r, (create_llm oracle env "openai" model_id api_key t m).result = Except.ok r) := by
  refine ⟨?_, ?_, ?_, ?_, ?_, ?_, create_llm_result_ok oracle env "openai" model_id api_key t m⟩
  · simp [initialize_llm, initialize_openai, h]
  · simp [initialize_llm, initialize_huggingface, h]
  · simp [initialize_llm, initialize_anthropic, h]
  · simp [initialize_llm, initialize_google, h]
  · rw [create_llm_env, stage_api_key_falsy env "openai" api_key h]
  · rw [create_llm_openai_attempted]
    simp

/-- Witness for C3: the absent-credential case at concrete inputs. -/
theorem C3_missing_credential_witness :
    initialize_llm ctor_fail [] "openai" "gpt-4" none (1/2) 512 =
      ⟨Except.error "Failed to initialize OpenAI LLM: API key is required for OpenAI", [], []⟩ :=
  (C3_missing_credential ctor_fail [] "gpt-4" none (1/2) 512 rfl).1

/-- Claim C4 (corrected), counterexample: for the not-implemented
`anthropic` provider, `create_llm` does not fail with an "unsupported
provider" ConfigurationError — it silently returns `None` (no exception,
no error value, no constructor call). -/
theorem C4_unsupported_counterexample :
    (create_llm ctor_fail [] "anthropic" "claude-2" (some "k") (1/2) 512).result = Except.ok none
  ∧ (create_llm ctor_fail [] "anthropic" "claude-2" (some "k") (1/2) 512).attempted = [] := by
  exact ⟨rfl, rfl⟩

/-- Claim C4 (corrected, amended): `EnhancedLLMProcessor` raises a clear
error for the not-implemented `local` provider and an "Unsupported
provider" ValueError for unknown providers, both before any constructor
call; `LLMProviderManager.create_llm` instead returns `None` for the
`anthropic`, `local` and unknown providers, without raising, without any
error message, and without attempting a constructor call.  Neither path
ever falls back to a different provider (no constructor call at all is
attempted). -/
theorem C4_unsupported_providers (oracle : CtorCall → Except String Client) (env : Env)
    (model_id : String) (api_key : Option String) (t : Rat) (m : Nat) :
    (initialize_llm oracle env "local" model_id api_key t m =
      ⟨Except.error "Local models are not yet supported in this version", env, []⟩)
  ∧ (∀ provider_id, provider_id ≠ "openai" → provider_id ≠ "huggingface" →
      provider_id ≠ "anthropic" → provider_id ≠ "google" → provider_id ≠ "local" →
      initialize_llm oracle env provider_id model_id api_key t m =
        ⟨Except.error ("Unsupported provider: " ++ provider_id), env, []⟩)
  ∧ ((create_llm oracle env "anthropic" model_id api_key t m).result = Except.ok none
      ∧ (create_llm oracle env "anthropic" model_id api_key t m).attempted = [])
  ∧ ((create_llm oracle env "local" model_id api_key t m).result = Except.ok none
      ∧ (create_llm oracle env "local" model_id api_key t m).attempted = [])
  ∧ (∀ provider_id, provider_id ≠ "huggingface" → provider_id ≠ "openai" →
      (create_llm oracle env provider_id model_id api_key t m).result = Except.ok none
      ∧ (create_llm oracle env provider_id model_id api_key t m).attempted = []) := by
  refine ⟨rfl, ?_, ⟨rfl, rfl⟩, ⟨rfl, rfl⟩, ?_⟩
  · intro provider_id h1 h2 h3 h4 h5
    simp [initialize_llm, h1, h2, h3, h4, h5]
  · intro provider_id h1 h2
    constructor <;> simp [create_llm, h1, h2]

/-- Witness for C4: an unknown provider id at concrete inputs. -/
theorem C4_unsupported_providers_witness :
    initialize_llm ctor_fail [] "mistral" "m" none (1/2) 512 =
      ⟨Except.error ("Unsupported provider: " ++ "mistral"), [], []⟩ :=
  (C4_unsupported_providers ctor_fail [] "m" none (1/2) 512).2.1 "mistral"
    (by decide) (by decide) (by decide) (by decide) (by decide)

/-- Claim C8 (corrected), counterexample: the credential staged by
`create_llm` persists in the environment channel after the call
returns. -/
theorem C8_credential_leak_counterexample :
    List.lookup "OPENAI_API_KEY"
      (create_llm ctor_fail [] "openai" "gpt-4" (some "k1") (1/2) 512).env = some "k1" := by
  rfl

/-- Claim C8 (corrected, amended): credential staging is not scoped to a
single client construction — the credential is written into the
process-wide environment channel and is still there after `create_llm`
returns; a later construction for the same provider with no credential
leaves the stale credential in place (so the two constructions
interfere), and a later construction with a different credential
overwrites it (last writer wins). -/
theorem C8_credential_persistence (oracle oracle2 : CtorCall → Except String Client)
    (env : Env) (model_id model_id2 : String) (key : String)
    (t t2 : Rat) (m m2 : Nat) (h : key ≠ "") :
    List.lookup "OPENAI_API_KEY"
      (create_llm oracle env "openai" model_id (some key) t m).env = some key
  ∧ List.lookup "OPENAI_API_KEY"
      (create_llm oracle2 (create_llm oracle env "openai" model_id (some key) t m).env
        "openai" model_id2 none t2 m2).env = some key
  ∧ (∀ key2, key2 ≠ "" →
      List.lookup "OPENAI_API_KEY"
        (create_llm oracle2 (create_llm oracle env "openai" model_id (some key) t m).env
          "openai" model_id2 (some key2) t2 m2).env = some key2) := by
  have hstage : ∀ (e : Env), stage_api_key e "openai" (some key) =
      setEnv e "OPENAI_API_KEY" key := by
    intro e
    have hreq : requires_api_key "openai" = true := rfl
    have hname : get_api_key_name "openai" = some "OPENAI_API_KEY" := rfl
    simp [stage_api_key, h, hreq, hname]
  have hlook : ∀ (e : Env) (v : String),
      List.lookup "OPENAI_API_KEY" (setEnv e "OPENAI_API_KEY" v) = some v := by
    intro e v
    simp [setEnv, List.lookup]
  refine ⟨?_, ?_, ?_⟩
  · rw [create_llm_env, hstage, hlook]
  · rw [create_llm_env, create_llm_env, hstage]
    exact hlook env key
  · intro key2 h2
    rw [create_llm_env]
    have hstage2 : ∀ (e : Env), stage_api_key e "openai" (some key2) =
        setEnv e "OPENAI_API_KEY" key2 := by
      intro e
      have hreq : requires_api_key "openai" = true := rfl
      have hname : get_api_key_name "openai" = some "OPENAI_API_KEY" := rfl
      simp [stage_api_key, h2, hreq, hname]
    rw [hstage2, hlook]

/-- Witness for C8: the stale credential survives a second,
credential-free construction at concrete inputs. -/
theorem C8_credential_persistence_witness :
    List.lookup "OPENAI_API_KEY"
      (create_llm ctor_ok (create_llm ctor_fail [] "openai" "gpt-4" (some "k1") (1/2) 512).env
        "openai" "gpt-4" none (1/2) 512).env = some "k1" :=
  (C8_credential_persistence ctor_fail ctor_ok [] "gpt-4" "gpt-4" "k1" (1/2) (1/2) 512 512
    (by decide)).2.1

/-- Claim C10 (confirmed).  `LLMProviderManager.create_llm` is total: for
every input it returns (never propagates an exception); any provider id
other than `huggingface` and `openai` returns `None`, and if every
backend constructor raises, the result is `None` for every provider —
the caller must test for `None` to detect construction failure. -/
theorem C10_create_llm_total (oracle : CtorCall → Except String Client) (env : Env)
    (provider_id model_id : String) (api_key : Option String) (t : Rat) (m : Nat) :
    (∃ r, (create_llm oracle env provider_id model_id api_key t m).result = Except.ok r)
  ∧ (provider_id ≠ "huggingface" → provider_id ≠ "openai" →
      (create_llm oracle env provider_id model_id api_key t m).result = Except.ok none)
  ∧ ((∀ call, ∃ e, oracle call = Except.error e) →
      (create_llm oracle env provider_id model_id api_key t m).result = Except.ok none) := by
  refine ⟨create_llm_result_ok oracle env provider_id model_id api_key t m, ?_, ?_⟩
  · intro h1 h2
    simp [create_llm, h1, h2]
  · intro hfail
    by_cases hh : provider_id = "huggingface"
    · subst hh
      obtain ⟨e, he⟩ := hfail (CtorCall.huggingFaceHub model_id t m)
      simp [create_llm, he]
    · by_cases ho : provider_id = "openai"
      · subst ho
        by_cases hc : (strContains model_id "gpt-3.5" = true ∨ strContains model_id "gpt-4" = true)
        · obtain ⟨e, he⟩ := hfail (CtorCall.chatOpenAI model_id t m)
          simp [create_llm, hc, he]
        · obtain ⟨e, he⟩ := hfail (CtorCall.openAI model_id t m)
          simp [create_llm, hc, he]
      · simp [create_llm, hh, ho]

/-- Witness for C10: every failure path at concrete inputs returns
`None`. -/
theorem C10_create_llm_total_witness :
    (create_llm ctor_fail [] "huggingface" "google/flan-t5-base" none (1/2) 512).result =
      Except.ok none :=
  (C10_create_llm_total ctor_fail [] "huggingface" "google/flan-t5-base" none (1/2) 512).2.2
    (fun _ => ⟨"connection error", rfl⟩)
